import Mathlib

/-!
Shallow embedding of the InsurTech spreadsheet-import pipeline
(src/production/import_production.py and src/staging/import_claims.py),
together with theorems settling the frozen claims about it.

Python floats are modelled as exact rationals plus infinity/NaN tags;
spreadsheet cell values as an inductive of None/float/str/datetime; the
record store and the spreadsheet reader are modelled at their interfaces
(lookup maps as functions, insert outcomes as oracles).  Dates are carried
as proleptic-Gregorian ordinals (0001-01-01 = day 1, as in Python's
datetime.toordinal), so Python date arithmetic becomes ordinal arithmetic.
-/

/-- Python float values: finite floats are modelled as exact rationals;
the infinities and NaN are separate tags. -/
inductive PyNum where
  | rat (q : ℚ)
  | inf
  | neginf
  | nan
deriving DecidableEq, Repr

/-- Python truthiness of a float: 0.0 is falsy, everything else (including
NaN and the infinities) is truthy. -/
def PyNum.truthy : PyNum → Bool
  | .rat q => q ≠ 0
  | _ => true

/-- Python comparison `v > 0`: false on NaN, true on +inf. -/
def PyNum.gtZero : PyNum → Bool
  | .rat q => 0 < q
  | .inf => true
  | .neginf => false
  | .nan => false

/-- Python comparison `a < b`: any comparison touching NaN is false. -/
def PyNum.lt : PyNum → PyNum → Bool
  | .nan, _ => false
  | _, .nan => false
  | .rat a, .rat b => a < b
  | .rat _, .inf => true
  | .rat _, .neginf => false
  | .inf, _ => false
  | .neginf, .neginf => false
  | .neginf, _ => true

/-- Multiplication of a Python float by a rational constant (used for the
decimal-to-percentage conversion `our_share_decimal * 100`). -/
def PyNum.mulRat : PyNum → ℚ → PyNum
  | .rat a, c => .rat (a * c)
  | .inf, c => if 0 < c then .inf else if c < 0 then .neginf else .nan
  | .neginf, c => if 0 < c then .neginf else if c < 0 then .inf else .nan
  | .nan, _ => .nan

/-- Python `int(q)` on a float value: truncation toward zero. -/
def ratTrunc (q : ℚ) : Int := if q < 0 then -((-q).floor) else q.floor

/-- A spreadsheet cell value as the importers see it: Python None, a float,
a string, or a datetime (carried as its proleptic-Gregorian ordinal day;
the importers only ever format the date part). -/
inductive CellVal where
  | none
  | num (n : PyNum)
  | str (s : String)
  | date (ordinal : Nat)
deriving DecidableEq, Repr

/-- Python truthiness of a cell value. -/
def CellVal.truthy : CellVal → Bool
  | .none => false
  | .num n => n.truthy
  | .str s => s ≠ ""
  | .date _ => true

/-- Convert a proleptic-Gregorian ordinal (0001-01-01 = 1, as in Python's
date.toordinal) to (year, month, day), by the standard era-based civil
calendar algorithm. -/
def civilOfOrdinal (o : Nat) : Nat × Nat × Nat :=
  let z := o + 305
  let era := z / 146097
  let doe := z % 146097
  let yoe := (doe - doe / 1460 + doe / 36524 - doe / 146096) / 365
  let y := yoe + era * 400
  let doy := doe - (365 * yoe + yoe / 4 - yoe / 100)
  let mp := (5 * doy + 2) / 153
  let d := doy - (153 * mp + 2) / 5 + 1
  let m := if mp < 10 then mp + 3 else mp - 9
  if m ≤ 2 then (y + 1, m, d) else (y, m, d)

/-- Zero-pad a number to two digits (strftime day/month field). -/
def pad2 (n : Nat) : String := if n < 10 then "0" ++ toString n else toString n

/-- Zero-pad a number to four digits (strftime year field). -/
def pad4 (n : Nat) : String :=
  if n < 10 then "000" ++ toString n
  else if n < 100 then "00" ++ toString n
  else if n < 1000 then "0" ++ toString n
  else toString n

/-- Format an ordinal day as strftime("%Y-%m-%d") does. -/
def isoOfOrdinal (o : Nat) : String :=
  let c := civilOfOrdinal o
  pad4 c.1 ++ "-" ++ pad2 c.2.1 ++ "-" ++ pad2 c.2.2

/-- Ordinal day of the spreadsheet epoch 1899-12-30. -/
def excelEpochOrdinal : Nat := 693594

/-- Ordinal day of 9999-12-31, the largest date Python's datetime accepts. -/
def maxOrdinal : Nat := 3652059

/-- Gregorian leap-year test. -/
def isLeapYear (y : Nat) : Bool := (y % 4 == 0 && y % 100 != 0) || y % 400 == 0

/-- Number of days in a month of a given year. -/
def daysInMonth (y m : Nat) : Nat :=
  if m = 2 then (if isLeapYear y then 29 else 28)
  else if m = 4 ∨ m = 6 ∨ m = 9 ∨ m = 11 then 30
  else 31

/-- List-level test that hay starts with needle. -/
def startsWithL : List Char → List Char → Bool
  | _, [] => true
  | [], _ :: _ => false
  | c :: cs, d :: ds => c = d && startsWithL cs ds

/-- List-level substring containment. -/
def containsSubL : List Char → List Char → Bool
  | [], needle => needle.isEmpty
  | c :: t, needle => startsWithL (c :: t) needle || containsSubL t needle

/-- Python's substring containment `sub in s`. -/
def strContains (s sub : String) : Bool := containsSubL s.data sub.data

/-- Value of a list of ASCII digit characters. -/
def digitsVal (l : List Char) : Nat := l.foldl (fun a c => a * 10 + (c.toNat - 48)) 0


/-- Drop leading and trailing whitespace from a character list. -/
def listTrim (l : List Char) : List Char :=
  ((l.dropWhile Char.isWhitespace).reverse.dropWhile Char.isWhitespace).reverse

/-- Python str.strip(). -/
def pyStrip (s : String) : String := ⟨listTrim s.data⟩

/-- Python str.lower() (modelled at ASCII fidelity). -/
def pyLower (s : String) : String := ⟨s.data.map Char.toLower⟩

/-- Python str.upper() (modelled at ASCII fidelity). -/
def pyUpper (s : String) : String := ⟨s.data.map Char.toUpper⟩

/-- Python s.replace(c, "") for a one-character pattern. -/
def pyRemove (s : String) (c : Char) : String := ⟨s.data.filter (· ≠ c)⟩

/-- Python slicing s[:n] (by code points). -/
def strTakeN (s : String) (n : Nat) : String := ⟨s.data.take n⟩

/-- Split a character list on a separator character, keeping empty parts. -/
def splitOnChar (sep : Char) : List Char → List (List Char)
  | [] => [[]]
  | c :: t =>
    if c = sep then [] :: splitOnChar sep t
    else
      match splitOnChar sep t with
      | h :: r => (c :: h) :: r
      | [] => [[c]]

/-- Python s.split(sep) for a one-character separator. -/
def pySplitOn (sep : Char) (s : String) : List String :=
  (splitOnChar sep s.data).map (fun l => ⟨l⟩)

/-- Split a character list at every character satisfying p. -/
def splitWhen (p : Char → Bool) : List Char → List (List Char)
  | [] => [[]]
  | c :: t =>
    if p c then [] :: splitWhen p t
    else
      match splitWhen p t with
      | h :: r => (c :: h) :: r
      | [] => [[c]]

/-- Parse a non-empty all-digit string as a natural number. -/
def natDigits? (s : String) : Option Nat :=
  if s.data ≠ [] ∧ s.data.all Char.isDigit then some (digitsVal s.data) else Option.none



/-- CPython strptime %d field: one digit 1-9 or two digits 01-31. -/
def dayField (s : String) : Option Nat :=
  if (s.length = 1 ∨ s.length = 2) ∧ s.data.all Char.isDigit then
    match natDigits? s with
    | some v => if 1 ≤ v ∧ v ≤ 31 then some v else Option.none
    | Option.none => Option.none
  else Option.none

/-- CPython strptime %m field: one digit 1-9 or two digits 01-12. -/
def monthField (s : String) : Option Nat :=
  if (s.length = 1 ∨ s.length = 2) ∧ s.data.all Char.isDigit then
    match natDigits? s with
    | some v => if 1 ≤ v ∧ v ≤ 12 then some v else Option.none
    | Option.none => Option.none
  else Option.none

/-- CPython strptime %Y field: exactly four digits. -/
def yearField (s : String) : Option Nat :=
  if s.length = 4 ∧ s.data.all Char.isDigit then natDigits? s else Option.none

/-- Validity check performed by the datetime constructor, followed by the
strftime("%Y-%m-%d") the importers apply to the parsed date. -/
def mkValidDate (y m d : Nat) : Option String :=
  if 1 ≤ y ∧ 1 ≤ m ∧ m ≤ 12 ∧ 1 ≤ d ∧ d ≤ daysInMonth y m then
    some (pad4 y ++ "-" ++ pad2 m ++ "-" ++ pad2 d)
  else Option.none

/-- strptime against a day-month-year pattern with the given separator. -/
def tryFormatDMY (sep : Char) (s : String) : Option String :=
  match pySplitOn sep s with
  | [p1, p2, p3] =>
    match dayField p1, monthField p2, yearField p3 with
    | some d, some m, some y => mkValidDate y m d
    | _, _, _ => Option.none
  | _ => Option.none

/-- strptime against a year-month-day pattern with the given separator. -/
def tryFormatYMD (sep : Char) (s : String) : Option String :=
  match pySplitOn sep s with
  | [p1, p2, p3] =>
    match yearField p1, monthField p2, dayField p3 with
    | some y, some m, some d => mkValidDate y m d
    | _, _, _ => Option.none
  | _ => Option.none

/-- strptime against a month-day-year pattern with the given separator. -/
def tryFormatMDY (sep : Char) (s : String) : Option String :=
  match pySplitOn sep s with
  | [p1, p2, p3] =>
    match monthField p1, dayField p2, yearField p3 with
    | some m, some d, some y => mkValidDate y m d
    | _, _, _ => Option.none
  | _ => Option.none

/-- Check CPython's numeric-literal underscore rule (an underscore must sit
between two digits) and remove the underscores; the first argument is the
previous character. -/
def stripUnderscoresAux : Option Char → List Char → Option (List Char)
  | _, [] => some []
  | prev, c :: rest =>
    if c = '_' then
      match prev, rest with
      | some p, n :: _ =>
        if p.isDigit ∧ n.isDigit then stripUnderscoresAux (some c) rest else Option.none
      | _, _ => Option.none
    else
      match stripUnderscoresAux (some c) rest with
      | some r => some (c :: r)
      | Option.none => Option.none

/-- Optional sign at the head of a numeric literal; returns (negative, rest). -/
def parseSign : List Char → Bool × List Char
  | '-' :: r => (true, r)
  | '+' :: r => (false, r)
  | l => (false, l)

/-- Decimal mantissa and exponent to an exact rational. -/
def mkDecimal (neg : Bool) (ip fp : List Char) (e : Int) : ℚ :=
  let base : ℚ := (digitsVal (ip ++ fp) : ℚ)
  let shift : Int := e - (fp.length : Int)
  let mag : ℚ :=
    if 0 ≤ shift then base * (10 : ℚ) ^ shift.toNat else base / (10 : ℚ) ^ (-shift).toNat
  if neg then -mag else mag

/-- Finite-decimal part of CPython float(str): optional sign, digits with an
optional decimal point (at least one digit overall), optional exponent. -/
def pyFloatCore (l : List Char) : Option ℚ :=
  let s := parseSign l
  let ipr := s.2.span Char.isDigit
  let fpr :=
    match ipr.2 with
    | '.' :: rest => rest.span Char.isDigit
    | _ => (([] : List Char), ipr.2)
  if ipr.1 = [] ∧ fpr.1 = [] then Option.none
  else
    match fpr.2 with
    | [] => some (mkDecimal s.1 ipr.1 fpr.1 0)
    | 'e' :: r3 =>
      let es := parseSign r3
      let edr := es.2.span Char.isDigit
      if edr.1 ≠ [] ∧ edr.2 = [] then
        let ev : Int := if es.1 then -(digitsVal edr.1 : Int) else (digitsVal edr.1 : Int)
        some (mkDecimal s.1 ipr.1 fpr.1 ev)
      else Option.none
    | _ => Option.none

/-- Model of CPython float(str) on a whitespace-free string: case-insensitive
inf/infinity/nan words, otherwise a signed decimal with optional exponent;
underscores are allowed between digits only. -/
def pyFloatOfString (s : String) : Option PyNum :=
  match stripUnderscoresAux Option.none (s.data.map Char.toLower) with
  | Option.none => Option.none
  | some t =>
    let sg := parseSign t
    if sg.2 = "inf".data ∨ sg.2 = "infinity".data then
      some (if sg.1 then PyNum.neginf else PyNum.inf)
    else if sg.2 = "nan".data then some PyNum.nan
    else
      match pyFloatCore t with
      | some q => some (PyNum.rat q)
      | Option.none => Option.none

/-- Rendering of a Python float by str(): modelled exactly on integral values
(the only floats this development ever renders); non-integral values keep a
fraction notation as a placeholder for the shortest round-trip decimal. -/
def ratRepr (q : ℚ) : String :=
  if q.den = 1 then toString q.num ++ ".0" else toString q.num ++ "/" ++ toString q.den

/-- Python str() of a cell value (str of a datetime shows a midnight time). -/
def pyStr : CellVal → String
  | .none => "None"
  | .str s => s
  | .num (.rat q) => ratRepr q
  | .num .inf => "inf"
  | .num .neginf => "-inf"
  | .num .nan => "nan"
  | .date o => isoOfOrdinal o ++ " 00:00:00"

/-- Python `a or b` over an optional float and a float default. -/
def pyOrNum (a : Option PyNum) (b : PyNum) : PyNum :=
  match a with
  | some v => if v.truthy then v else b
  | Option.none => b

/-- Python `a or b` over two optional floats. -/
def pyOr2 (a b : Option PyNum) : Option PyNum :=
  match a with
  | some v => if v.truthy then some v else b
  | Option.none => b

/-- Python `a or b` over an optional string and a string default. -/
def pyOrStr (a : Option String) (b : String) : String :=
  match a with
  | some s => if s ≠ "" then s else b
  | Option.none => b

/-- Python `a or b` over two optional strings. -/
def pyOrStr2 (a b : Option String) : Option String :=
  match a with
  | some s => if s ≠ "" then some s else b
  | Option.none => b

/-- CPython max on two floats: the second argument wins only when strictly
greater (NaN comparisons are false, so a NaN second argument never wins). -/
def pyMax (a b : PyNum) : PyNum := if PyNum.lt a b then b else a

/-- Python falsiness of an optional string (None or the empty string). -/
def optFalsy (o : Option String) : Bool :=
  match o with
  | Option.none => true
  | some s => s = ""

namespace Production

/-- Embedding of import_production.parse_date: a datetime is formatted; a
numeric adds its integer part as a day offset to the 1899-12-30 epoch (an
out-of-range datetime raises OverflowError, caught to None, and int() on
inf/NaN raises, caught to None); a string is tried against the five
strptime patterns in order; anything else is None. -/
def parse_date (value : CellVal) : Option String :=
  match value with
  | .none => Option.none
  | .date o => some (isoOfOrdinal o)
  | .num (.rat q) =>
    let o : Int := (excelEpochOrdinal : Int) + ratTrunc q
    if 1 ≤ o ∧ o ≤ (maxOrdinal : Int) then some (isoOfOrdinal o.toNat) else Option.none
  | .num _ => Option.none
  | .str s =>
    let t := pyStrip s
    if t = "" then Option.none
    else
      (tryFormatDMY '.' t).orElse fun _ =>
      (tryFormatYMD '-' t).orElse fun _ =>
      (tryFormatMDY '/' t).orElse fun _ =>
      (tryFormatDMY '/' t).orElse fun _ =>
      tryFormatYMD '/' t

/-- Embedding of import_production.parse_number: a float passes through
unchanged (this variant has no infinite/NaN check); a string is stripped of
commas, spaces, non-breaking spaces, currency glyphs and percent signs, the
results "" and "-" give None, and the rest goes through float(). -/
def parse_number (value : CellVal) : Option PyNum :=
  match value with
  | .none => Option.none
  | .num n => some n
  | .str s =>
    let cleaned :=
      pyRemove (pyRemove (pyRemove (pyRemove (pyRemove (pyRemove
        (pyStrip s) ',') ' ') '\u00a0') '$') '\u20ac') '%'
    if cleaned = "" ∨ cleaned = "-" then Option.none
    else pyFloatOfString cleaned
  | .date _ => Option.none

/-- Embedding of import_production.parse_structure. -/
def parse_structure (value : CellVal) : String :=
  match value with
  | .none => "PROPORTIONAL"
  | v =>
    let s := pyUpper (pyStrip (pyStr v))
    if strContains s "XL" || strContains s "EXCESS" || strContains s "NON" then
      "NON_PROPORTIONAL"
    else "PROPORTIONAL"

/-- Embedding of import_production.determine_origin. -/
def determine_origin (territory currency : Option String) : String :=
  let domesticTerritory :=
    match territory with
    | some t => t ≠ "" && (strContains (pyLower t) "uzbek" || pyLower t == "uz")
    | Option.none => false
  if domesticTerritory then "DOMESTIC"
  else
    let domesticCurrency :=
      match currency with
      | some c => c ≠ "" && pyUpper c == "UZS"
      | Option.none => false
    if domesticCurrency then "DOMESTIC" else "FOREIGN"

/-- Embedding of import_production.determine_entity_type: first matching
rule wins; there is no insured branch in the source function. -/
def determine_entity_type (name : String) (is_cedant is_broker : Bool) : String :=
  let nl := pyLower name
  if is_broker || strContains nl "broker" then "Broker"
  else if strContains nl "insurance" || strContains nl "страхов" ||
      strContains nl "insuranc" then "Insurance Company"
  else if strContains nl "reinsur" || strContains nl "перестрах" then "Reinsurer"
  else if is_cedant then "Insurance Company"
  else "Other"

/-- Embedding of import_production.normalize_name: collapse internal
whitespace runs to one space and trim. -/
def normalize_name (name : String) : String :=
  if name = "" then ""
  else pyStrip (String.intercalate " "
    (((splitWhen Char.isWhitespace name.data).map (fun l => (⟨l⟩ : String))).filter (· ≠ "")))

/-- Leftmost match of the regex 20\d\d in a character list: at each
position, test for the literal 2, 0 and two digits, else advance one. -/
def findYear20 : List Char → Option Nat
  | [] => Option.none
  | c :: rest =>
    match rest with
    | d :: a :: b :: _ =>
      if c = '2' && d = '0' && a.isDigit && b.isDigit then
        some (2000 + (a.toNat - 48) * 10 + (b.toNat - 48))
      else findYear20 rest
    | _ => findYear20 rest

/-- Embedding of import_production.extract_year_from_sheet_name; the current
calendar year is passed in as a parameter. -/
def extract_year_from_sheet_name (sheet_name : String) (currentYear : Nat) : Nat :=
  (findYear20 sheet_name.data).getD currentYear

/-- The inward_reinsurance record parse_row builds (dict keys become fields;
the key named structure is rendered structure_). -/
structure Record where
  original_insured_name : Option String := Option.none
  broker_name : Option String := Option.none
  cedant_name : Option String := Option.none
  contract_number : Option String := Option.none
  type_of_cover : Option String := Option.none
  class_of_cover : Option String := Option.none
  risk_description : Option String := Option.none
  industry : Option String := Option.none
  territory : Option String := Option.none
  currency : Option String := Option.none
  inception_date : Option String := Option.none
  expiry_date : Option String := Option.none
  limit_of_liability : Option PyNum := Option.none
  deductible : Option PyNum := Option.none
  our_share : Option PyNum := Option.none
  gross_premium : Option PyNum := Option.none
  commission_percent : Option PyNum := Option.none
  net_premium : Option PyNum := Option.none
  structure_ : String := "PROPORTIONAL"
  notes : Option String := Option.none
  origin : String := "FOREIGN"
  type : String := "FAC"
  status : String := "ACTIVE"
  cedant_country : Option String := Option.none
  import_batch_id : Option String := Option.none
  import_source : Option String := Option.none
  uw_year : Nat := 0
deriving DecidableEq, Repr

/-- get_cell_value over a row modelled as a list of cell values. -/
def cellAt (row : List CellVal) (i : Nat) : CellVal := row.getD i .none

/-- Text-column coercion: str(value).strip() if value else None. -/
def textField (v : CellVal) : Option String :=
  if v.truthy then some (pyStrip (pyStr v)) else Option.none

/-- Notes concatenation over the configured NOTES_COLUMNS. -/
def notesOf (row : List CellVal) : Option String :=
  let parts :=
    ([2, 3, 6, 8, 9, 10, 13, 17, 18, 20, 21].map (cellAt row)).filterMap
      (fun v => if v.truthy then some (pyStrip (pyStr v)) else Option.none)
  if parts = [] then Option.none else some (String.intercalate " | " parts)

/-- Year derivation for a record: first four characters of the inception
date when present and numeric, else the sheet-name fallback. -/
def uwYearOf (inception : Option String) (sheet_name : String) (currentYear : Nat) : Nat :=
  match inception with
  | some s =>
    if s ≠ "" then
      match natDigits? (strTakeN s 4) with
      | some y => y
      | Option.none => extract_year_from_sheet_name sheet_name currentYear
    else extract_year_from_sheet_name sheet_name currentYear
  | Option.none => extract_year_from_sheet_name sheet_name currentYear

/-- Fallback: missing contract number gets the synthesized placeholder. -/
def fbContract (rec : Record) (placeholder : String) : Record :=
  if optFalsy rec.contract_number then { rec with contract_number := some placeholder }
  else rec

/-- Fallback: missing cedant name gets the sentinel. -/
def fbCedant (rec : Record) : Record :=
  if optFalsy rec.cedant_name then { rec with cedant_name := some "Unknown Cedant" }
  else rec

/-- Fallback: missing type of cover defaults to Property. -/
def fbType (rec : Record) : Record :=
  if optFalsy rec.type_of_cover then { rec with type_of_cover := some "Property" }
  else rec

/-- Fallback: missing class of cover defaults to All Risks. -/
def fbClass (rec : Record) : Record :=
  if optFalsy rec.class_of_cover then { rec with class_of_cover := some "All Risks" }
  else rec

/-- Fallback: missing inception date defaults to today. -/
def fbInception (rec : Record) (today : String) : Record :=
  if optFalsy rec.inception_date then { rec with inception_date := some today }
  else rec

/-- Fallback: missing expiry date defaults to today plus 365 days. -/
def fbExpiry (rec : Record) (next_year : String) : Record :=
  if optFalsy rec.expiry_date then { rec with expiry_date := some next_year }
  else rec

/-- Fallback: missing currency defaults to USD. -/
def fbCurrency (rec : Record) : Record :=
  if optFalsy rec.currency then { rec with currency := some "USD" } else rec

/-- Fallback: a limit of liability that is None defaults to 0. -/
def fbLimit (rec : Record) : Record :=
  if rec.limit_of_liability = Option.none then
    { rec with limit_of_liability := some (.rat 0) }
  else rec

/-- Fallback: a gross premium that is None defaults to 0. -/
def fbGross (rec : Record) : Record :=
  if rec.gross_premium = Option.none then { rec with gross_premium := some (.rat 0) }
  else rec

/-- Fallback: a share that is None defaults to 100. -/
def fbShare (rec : Record) : Record :=
  if rec.our_share = Option.none then { rec with our_share := some (.rat 100) }
  else rec

/-- Embedding of import_production.parse_row.  The ambient clock is passed
in: today and next_year are today's and today+365's ISO strings and
currentYear the current calendar year.  Returns None for sparse rows. -/
def parse_row (row : List CellVal) (row_number : Nat)
    (sheet_name batch_id today next_year : String) (currentYear : Nat) :
    Option Record :=
  let r0 : Record := {
    original_insured_name := textField (cellAt row 1)
    broker_name := textField (cellAt row 4)
    cedant_name := textField (cellAt row 5)
    contract_number := textField (cellAt row 7)
    type_of_cover := textField (cellAt row 11)
    class_of_cover := textField (cellAt row 12)
    risk_description := textField (cellAt row 14)
    industry := textField (cellAt row 15)
    territory := textField (cellAt row 16)
    currency := textField (cellAt row 19)
    inception_date := parse_date (cellAt row 25)
    expiry_date := parse_date (cellAt row 26)
    limit_of_liability := parse_number (cellAt row 32)
    deductible := parse_number (cellAt row 35)
    our_share := parse_number (cellAt row 39)
    gross_premium := parse_number (cellAt row 41)
    commission_percent := parse_number (cellAt row 45)
    net_premium := parse_number (cellAt row 48)
    structure_ := parse_structure (cellAt row 31)
    notes := notesOf row }
  if optFalsy r0.cedant_name && optFalsy r0.contract_number &&
      optFalsy r0.original_insured_name then Option.none
  else
    let r1 : Record := { r0 with
      origin := determine_origin r0.territory r0.currency
      type := "FAC"
      status := "ACTIVE"
      cedant_country := r0.territory
      import_batch_id := some batch_id
      import_source := some ("Excel:" ++ sheet_name ++ ":Row" ++ toString row_number)
      uw_year := uwYearOf r0.inception_date sheet_name currentYear }
    let placeholder := "IMPORT-" ++ sheet_name ++ "-" ++ toString row_number
    some (fbShare (fbGross (fbLimit (fbCurrency (fbExpiry
      (fbInception (fbClass (fbType (fbCedant (fbContract r1 placeholder))))
        today) next_year)))))

/-- The warnings import_production.parse_row collects for a row: the source
declares no warning list, appends nothing and prints nothing, so the
warning trace of every row is empty. -/
def parse_row_warnings (_row : List CellVal) (_row_number : Nat)
    (_sheet_name : String) : List String := []

end Production

namespace Production

/-- A legal-entity candidate as built by extract_legal_entities. -/
structure Entity where
  fullName : String
  shortName : Option String
  type : String
  country : Option String
  import_batch_id : Option String
deriving DecidableEq, Repr

/-- First-match association-list lookup, modelling dict membership and
access on the normalized-name-keyed entities dict. -/
def lookupKey (k : String) : List (String × Entity) → Option Entity
  | [] => Option.none
  | (k2, e) :: rest => if k2 = k then some e else lookupKey k rest

/-- Insert a candidate under its dedup key unless the key is falsy or
already present (the `if normalized and normalized not in entities` guard). -/
def addEntity (acc : List (String × Entity)) (key : String) (e : Entity) :
    List (String × Entity) :=
  if key = "" ∨ (lookupKey key acc).isSome then acc else acc ++ [(key, e)]

/-- The cedant-role candidate built from a record. -/
def cedantEntity (r : Record) (cn : String) : Entity :=
  { fullName := pyStrip cn
    shortName := if 50 < cn.length then some (strTakeN (pyStrip cn) 50) else Option.none
    type := determine_entity_type cn true false
    country := pyOrStr2 r.cedant_country r.territory
    import_batch_id := r.import_batch_id }

/-- The broker-role candidate built from a record. -/
def brokerEntity (r : Record) (bn : String) : Entity :=
  { fullName := pyStrip bn
    shortName := if 50 < bn.length then some (strTakeN (pyStrip bn) 50) else Option.none
    type := determine_entity_type bn false true
    country := Option.none
    import_batch_id := r.import_batch_id }

/-- The insured-role candidate built from a record; the source assigns the
type "Insured" directly without calling determine_entity_type. -/
def insuredEntity (r : Record) (nm : String) : Entity :=
  { fullName := pyStrip nm
    shortName := if 50 < nm.length then some (strTakeN (pyStrip nm) 50) else Option.none
    type := "Insured"
    country := r.territory
    import_batch_id := r.import_batch_id }

/-- Process one record of the extract_legal_entities loop: cedant, broker
and original-insured candidates in source order. -/
def processRecord (acc : List (String × Entity)) (r : Record) :
    List (String × Entity) :=
  let a1 := match r.cedant_name with
    | some cn =>
      if cn ≠ "" ∧ cn ≠ "Unknown Cedant" then
        addEntity acc (normalize_name cn) (cedantEntity r cn)
      else acc
    | Option.none => acc
  let a2 := match r.broker_name with
    | some bn => if bn ≠ "" then addEntity a1 (normalize_name bn) (brokerEntity r bn) else a1
    | Option.none => a1
  match r.original_insured_name with
  | some nm => if nm ≠ "" then addEntity a2 (normalize_name nm) (insuredEntity r nm) else a2
  | Option.none => a2

/-- The normalized-name-keyed entities dict after the whole run (dict
insertion order is the association-list order). -/
def entityMap (records : List Record) : List (String × Entity) :=
  records.foldl processRecord []

/-- Embedding of import_production.extract_legal_entities:
list(entities.values()). -/
def extract_legal_entities (records : List Record) : List Entity :=
  (entityMap records).map Prod.snd

/-- Running totals of the step-6 commit loop in run_import. -/
structure CommitState where
  inserted : Nat
  errors : Nat
  errorRecords : List (Option String × String)
deriving DecidableEq, Repr

/-- One chunk of the step-6 insert loop of run_import: a successful bulk
insert counts the whole chunk; a failed one falls back to row-by-row
inserts, counting each success and recording each failure as the record's
contract number plus the first 100 characters of the error message.  The
store's behaviour is an oracle: rowOk says whether a single-record insert
succeeds and bulkOk whether the chunk-level insert does. -/
def insertBatch {a : Type} (rowOk : a → Bool) (contractOf : a → Option String)
    (errMsg : a → String) (bulkOk : List a → Bool)
    (st : CommitState) (batch : List a) : CommitState :=
  if bulkOk batch then { st with inserted := st.inserted + batch.length }
  else
    batch.foldl
      (fun s r =>
        if rowOk r then { s with inserted := s.inserted + 1 }
        else { s with
          errors := s.errors + 1
          errorRecords := s.errorRecords ++ [(contractOf r, strTakeN (errMsg r) 100)] })
      st

/-- BATCH_SIZE chunking of the record list (range(0, len, BATCH_SIZE)). -/
def toBatches {a : Type} : List a → List (List a)
  | [] => []
  | x :: xs => (x :: xs).take 50 :: toBatches ((x :: xs).drop 50)
termination_by l => l.length
decreasing_by simp only [List.length_drop, List.length_cons]; omega

/-- The whole step-6 loop: fold the per-chunk step over the chunks of the
record list, starting from zero counters. -/
def run_inserts {a : Type} (rowOk : a → Bool) (contractOf : a → Option String)
    (errMsg : a → String) (bulkOk : List a → Bool) (records : List a) : CommitState :=
  (toBatches records).foldl (insertBatch rowOk contractOf errMsg bulkOk)
    { inserted := 0, errors := 0, errorRecords := [] }

/-- The two tables rollback_batch touches (the tables carrying the
import_batch_id attribute). -/
structure Store (a : Type) where
  inward_reinsurance : List a
  legal_entities : List a
deriving DecidableEq, Repr

/-- One table of the rollback_batch loop: count the rows tagged with the
batch id, skip the table when there are none, otherwise ask for
confirmation and, only on "yes", delete exactly the rows whose
import_batch_id equals the given batch id. -/
def rollbackTable {a : Type} (batchOf : a → Option String)
    (confirm : String → Nat → Bool) (batch_id tname : String)
    (rows : List a) : List a :=
  let cnt := (rows.filter (fun r => batchOf r == some batch_id)).length
  if cnt = 0 then rows
  else if confirm tname cnt then rows.filter (fun r => !(batchOf r == some batch_id))
  else rows

/-- Embedding of import_production.rollback_batch over the two tagged
tables; confirm is the interactive yes/no gate, fed the table name and the
matching-row count. -/
def rollback_batch {a : Type} (batchOf : a → Option String)
    (confirm : String → Nat → Bool) (batch_id : String) (st : Store a) : Store a :=
  { inward_reinsurance :=
      rollbackTable batchOf confirm batch_id "inward_reinsurance" st.inward_reinsurance
    legal_entities :=
      rollbackTable batchOf confirm batch_id "legal_entities" st.legal_entities }

end Production

namespace Claims

/-- Embedding of import_claims.parse_date; it differs from the production
variant by treating the empty string and the numeric 0 as None up front. -/
def parse_date (value : CellVal) : Option String :=
  match value with
  | .none => Option.none
  | .str "" => Option.none
  | .date o => some (isoOfOrdinal o)
  | .num (.rat q) =>
    if q = 0 then Option.none
    else
      let o : Int := (excelEpochOrdinal : Int) + ratTrunc q
      if 1 ≤ o ∧ o ≤ (maxOrdinal : Int) then some (isoOfOrdinal o.toNat) else Option.none
  | .num _ => Option.none
  | .str s =>
    let t := pyStrip s
    if t = "" then Option.none
    else
      (tryFormatDMY '.' t).orElse fun _ =>
      (tryFormatYMD '-' t).orElse fun _ =>
      (tryFormatMDY '/' t).orElse fun _ =>
      (tryFormatDMY '/' t).orElse fun _ =>
      tryFormatYMD '/' t

/-- Embedding of import_claims.parse_number (same cleaning pipeline as the
production variant, with an explicit empty-string check up front). -/
def parse_number (value : CellVal) : Option PyNum :=
  match value with
  | .none => Option.none
  | .str "" => Option.none
  | .num n => some n
  | .str s =>
    let cleaned :=
      pyRemove (pyRemove (pyRemove (pyRemove (pyRemove (pyRemove
        (pyStrip s) ',') ' ') '\u00a0') '$') '\u20ac') '%'
    if cleaned = "" ∨ cleaned = "-" then Option.none
    else pyFloatOfString cleaned
  | .date _ => Option.none

/-- Embedding of import_claims.determine_source_type: substring match over
the SOURCE_TYPE_MAP keys in dict order. -/
def determine_source_type (col0 : CellVal) : String :=
  match col0 with
  | .none => "unknown"
  | v =>
    let vl := pyLower (pyStrip (pyStr v))
    if strContains vl "foreign inward" then "inward-foreign"
    else if strContains vl "local inward" then "inward-domestic"
    else if strContains vl "domestic inward" then "inward-domestic"
    else if strContains vl "direct" then "direct"
    else if strContains vl "local outward" then "outward"
    else "unknown"

/-- Python `v and v > 0` over an optional float. -/
def posAmount (o : Option PyNum) : Bool :=
  match o with
  | some v => v.truthy && v.gtZero
  | Option.none => false

/-- Embedding of import_claims.determine_liability_type. -/
def determine_liability_type (reserve paid : Option PyNum) : String :=
  if posAmount reserve || posAmount paid then "ACTIVE" else "INFORMATIONAL"

/-- Embedding of import_claims.determine_status. -/
def determine_status (paid outstanding : Option PyNum) : String :=
  if posAmount outstanding then "OPEN"
  else if posAmount paid then "CLOSED"
  else "OPEN"

/-- Lookup key of an identifier cell: str(v).strip().lower() if v else "". -/
def keyOf (v : CellVal) : String :=
  if v.truthy then pyLower (pyStrip (pyStr v)) else ""

/-- Embedding of import_claims.match_parent.  The three lookup maps built
once per run from the store are passed as functions; the result is the
(policy_id, inward_reinsurance_id) pair. -/
def match_parent (source_type : String) (slip_number contract_number : CellVal)
    (policies_by_number policies_by_slip inward_by_contract : String → Option String) :
    Option String × Option String :=
  let slip_key := keyOf slip_number
  let contract_key := keyOf contract_number
  if source_type = "inward-foreign" ∨ source_type = "inward-domestic" then
    if slip_key ≠ "" ∧ (inward_by_contract slip_key).isSome then
      (Option.none, inward_by_contract slip_key)
    else if contract_key ≠ "" ∧ (inward_by_contract contract_key).isSome then
      (Option.none, inward_by_contract contract_key)
    else (Option.none, Option.none)
  else if source_type = "direct" then
    if contract_key ≠ "" ∧ (policies_by_number contract_key).isSome then
      (policies_by_number contract_key, Option.none)
    else (Option.none, Option.none)
  else if source_type = "outward" then
    if slip_key ≠ "" ∧ (policies_by_slip slip_key).isSome then
      (policies_by_slip slip_key, Option.none)
    else if contract_key ≠ "" ∧ (policies_by_number contract_key).isSome then
      (policies_by_number contract_key, Option.none)
    else (Option.none, Option.none)
  else (Option.none, Option.none)

/-- The claims-table record parse_claim_row builds; the parent-reference
keys are present in the dict only when the matcher returned a truthy id,
modelled as Option fields that are None when absent. -/
structure Claim where
  claim_number : String
  source_type : String
  slip_number : Option String
  contract_number : Option String
  liability_type : String
  status : String
  loss_date : Option String
  report_date : String
  description : Option String
  claimant_name : Option String
  location_country : Option String
  imported_total_incurred : PyNum
  imported_total_paid : PyNum
  is_deleted : Bool
  policy_id : Option String
  inward_reinsurance_id : Option String
deriving DecidableEq, Repr

/-- A claim_transactions row; claim_id is set only at step 6, when the
parent claim row has obtained its store-generated id. -/
structure Txn where
  transaction_type : String
  transaction_date : String
  amount_100pct : Option PyNum
  currency : String
  exchange_rate : PyNum
  our_share_percentage : PyNum
  notes : String
  claim_id : Option String
deriving DecidableEq, Repr

/-- Python `if x:` guard on an optional id before adding the dict key. -/
def keepTruthy (o : Option String) : Option String :=
  match o with
  | some s => if s = "" then Option.none else some s
  | Option.none => Option.none

/-- Embedding of import_claims.parse_claim_row.  The sheet is a function
from (row, column) to the cell value get_cell_value returns; today is the
current date's ISO string.  Returns (None, []) for skipped rows. -/
def parse_claim_row (sheet : Nat → Nat → CellVal) (row_idx row_number : Nat)
    (policies_by_number policies_by_slip inward_by_contract : String → Option String)
    (today : String) : Option Claim × List Txn :=
  let col0 := sheet row_idx 0
  let source_type := determine_source_type col0
  if source_type = "unknown" ∧ ¬ col0.truthy then (Option.none, [])
  else
    let loss_date := parse_date (sheet row_idx 1)
    let report_date := parse_date (sheet row_idx 2)
    let claim_number_raw := sheet row_idx 3
    let broker_reinsurer := sheet row_idx 4
    let slip_number := sheet row_idx 5
    let claimant_name := sheet row_idx 7
    let reinsured := sheet row_idx 8
    let insurance_type := sheet row_idx 9
    let risk_description := sheet row_idx 10
    let location_country := sheet row_idx 11
    let city := sheet row_idx 12
    let contract_number := sheet row_idx 13
    let currency := sheet row_idx 14
    let our_share_decimal := parse_number (sheet row_idx 25)
    let reserve_fc := parse_number (sheet row_idx 33)
    let total_loss := parse_number (sheet row_idx 35)
    let paid_fc := parse_number (sheet row_idx 40)
    let exchange_rate := parse_number (sheet row_idx 41)
    let payment_date := parse_date (sheet row_idx 43)
    let outstanding := parse_number (sheet row_idx 44)
    let description := sheet row_idx 46
    let our_share_percentage := our_share_decimal.map (fun v => v.mulRat 100)
    let claim_number :=
      if claim_number_raw.truthy then pyStrip (pyStr claim_number_raw)
      else "IMP-CLM-" ++ toString row_number
    let pm := match_parent source_type slip_number contract_number
      policies_by_number policies_by_slip inward_by_contract
    let notes_parts :=
      (if broker_reinsurer.truthy then
        ["Broker/Reinsurer: " ++ pyStr broker_reinsurer] else []) ++
      (if reinsured.truthy then ["Reinsured: " ++ pyStr reinsured] else []) ++
      (if insurance_type.truthy then
        ["Insurance Type: " ++ pyStr insurance_type] else []) ++
      (if risk_description.truthy then ["Risk: " ++ pyStr risk_description] else []) ++
      (if city.truthy then ["City: " ++ pyStr city] else [])
    let notes :=
      if notes_parts = [] then Option.none
      else some (String.intercalate " | " notes_parts)
    let claim : Claim := {
      claim_number := claim_number
      source_type := source_type
      slip_number :=
        if slip_number.truthy then some (pyStrip (pyStr slip_number)) else Option.none
      contract_number :=
        if contract_number.truthy then some (pyStrip (pyStr contract_number)) else Option.none
      liability_type := determine_liability_type reserve_fc paid_fc
      status := determine_status paid_fc outstanding
      loss_date := loss_date
      report_date := pyOrStr report_date today
      description :=
        if description.truthy then some (strTakeN (pyStr description) 1000) else notes
      claimant_name :=
        if claimant_name.truthy then some (pyStrip (pyStr claimant_name)) else Option.none
      location_country :=
        if location_country.truthy then some (pyStrip (pyStr location_country)) else Option.none
      imported_total_incurred :=
        pyMax (pyOrNum total_loss (.rat 0)) (pyOrNum reserve_fc (.rat 0))
      imported_total_paid := pyOrNum paid_fc (.rat 0)
      is_deleted := false
      policy_id := keepTruthy pm.1
      inward_reinsurance_id := keepTruthy pm.2 }
    let reserve_txns : List Txn :=
      if posAmount reserve_fc then
        [{ transaction_type := "RESERVE_SET"
           transaction_date := pyOrStr loss_date today
           amount_100pct := pyOr2 total_loss reserve_fc
           currency := if currency.truthy then pyUpper (pyStrip (pyStr currency)) else "USD"
           exchange_rate := pyOrNum exchange_rate (.rat 1)
           our_share_percentage := pyOrNum our_share_percentage (.rat 100)
           notes := "Imported from Excel portfolio (reserve)"
           claim_id := Option.none }]
      else []
    let payment_txns : List Txn :=
      if posAmount paid_fc then
        [{ transaction_type := "PAYMENT"
           transaction_date := pyOrStr payment_date (pyOrStr loss_date today)
           amount_100pct := paid_fc
           currency := if currency.truthy then pyUpper (pyStrip (pyStr currency)) else "USD"
           exchange_rate := pyOrNum exchange_rate (.rat 1)
           our_share_percentage := pyOrNum our_share_percentage (.rat 100)
           notes := "Imported from Excel portfolio (payment)"
           claim_id := Option.none }]
      else []
    (some claim, reserve_txns ++ payment_txns)

/-- Embedding of the step-6 dependent-batch construction in
import_claims.main: each (claim-index, transaction) pair is kept, with its
claim_id set to the parent's store-generated id, exactly when the parent
claim row obtained an id; pairs whose parent failed are silently skipped. -/
def buildTransactions (all_transactions : List (Nat × Txn))
    (claim_id_map : Nat → Option String) : List Txn :=
  all_transactions.foldl
    (fun acc p =>
      match claim_id_map p.1 with
      | some cid => acc ++ [{ p.2 with claim_id := some cid }]
      | Option.none => acc)
    []

end Claims

/-! Helper lemmas shared by the claim theorems. -/

/-- Splitting a list's length by a Boolean predicate. -/
theorem filter_length_split {a : Type} (p : a → Bool) (l : List a) :
    (l.filter p).length + (l.filter (fun r => !(p r))).length = l.length := by
  induction l with
  | nil => simp
  | cons hd tl ih =>
    by_cases h : p hd <;> simp [List.filter_cons, h] <;> omega

/-- The dependent-batch fold, with an explicit accumulator. -/
theorem buildTransactions_go (idmap : Nat → Option String)
    (txns : List (Nat × Claims.Txn)) (acc : List Claims.Txn) :
    txns.foldl
      (fun acc p =>
        match idmap p.1 with
        | some cid => acc ++ [{ p.2 with claim_id := some cid }]
        | Option.none => acc)
      acc
    = acc ++ (txns.filter (fun p => (idmap p.1).isSome)).map
        (fun p => { p.2 with claim_id := idmap p.1 }) := by
  induction txns generalizing acc with
  | nil => simp
  | cons hd tl ih =>
    simp only [List.foldl_cons, List.filter_cons]
    cases h : idmap hd.1 with
    | none => simp [h, ih]
    | some cid => simp [h, ih]

/-- C8: For every dependent sub-record (claim transaction) whose parent
claim row failed to insert and therefore obtained no store-generated id,
the sub-record is silently dropped from the dependent insert batch without
incrementing any error count; every sub-record whose parent row succeeded
is included, carrying the parent's generated id.  (The construction is a
pure filter over parent-id presence: no error counter exists at this
stage, and each kept transaction's claim_id is set to the parent's id.) -/
theorem dependent_txn_parent_gating (txns : List (Nat × Claims.Txn))
    (idmap : Nat → Option String) :
    Claims.buildTransactions txns idmap
      = (txns.filter (fun p => (idmap p.1).isSome)).map
          (fun p => { p.2 with claim_id := idmap p.1 }) := by
  simpa using buildTransactions_go idmap txns []

/-- C10: For every parsed claim row, the derived status is OPEN whenever
the outstanding amount is present and positive, even if the paid amount is
also positive; it is CLOSED exactly when outstanding is absent or
non-positive while the paid amount is positive; and it defaults to OPEN
when neither amount is positive; and parse_claim_row wires the status from
the paid (column 40) and outstanding (column 44) amounts. -/
theorem determine_status_rules :
    (∀ p o, Claims.posAmount o = true → Claims.determine_status p o = "OPEN") ∧
    (∀ p (x : ℚ), 0 < x →
      Claims.determine_status p (some (.rat x)) = "OPEN") ∧
    (∀ p o, Claims.determine_status p o = "CLOSED" ↔
      Claims.posAmount o = false ∧ Claims.posAmount p = true) ∧
    (∀ p o, Claims.posAmount o = false → Claims.posAmount p = false →
      Claims.determine_status p o = "OPEN") ∧
    (∀ sheet row_idx row_number pbn pbs ibc today c txns,
      Claims.parse_claim_row sheet row_idx row_number pbn pbs ibc today
          = (some c, txns) →
      c.status = Claims.determine_status
        (Claims.parse_number (sheet row_idx 40))
        (Claims.parse_number (sheet row_idx 44))) := by
  refine ⟨?_, ?_, ?_, ?_, ?_⟩
  · intro p o h
    simp [Claims.determine_status, h]
  · intro p x hx
    have h : Claims.posAmount (some (.rat x)) = true := by
      simp [Claims.posAmount, PyNum.truthy, PyNum.gtZero, hx, ne_of_gt hx]
    simp [Claims.determine_status, h]
  · intro p o
    constructor
    · intro h
      by_cases ho : Claims.posAmount o
      · simp [Claims.determine_status, ho] at h
      · by_cases hp : Claims.posAmount p
        · exact ⟨by simpa using ho, hp⟩
        · simp [Claims.determine_status, ho, hp] at h
    · rintro ⟨ho, hp⟩
      simp [Claims.determine_status, ho, hp]
  · intro p o ho hp
    simp [Claims.determine_status, ho, hp]
  · intro sheet row_idx row_number pbn pbs ibc today c txns h
    simp only [Claims.parse_claim_row] at h
    split at h
    · exact absurd (congrArg Prod.fst h) (by simp)
    · have hc := congrArg Prod.fst h
      simp only at hc
      have := Option.some.inj hc
      subst this
      rfl

/-- C10 witness: the status rules applied at concrete amounts. -/
theorem determine_status_rules_witness :
    Claims.determine_status (some (.rat 30)) (some (.rat 70)) = "OPEN" ∧
    Claims.determine_status (some (.rat 30)) Option.none = "CLOSED" ∧
    Claims.determine_status Option.none Option.none = "OPEN" :=
  ⟨determine_status_rules.1 (some (.rat 30)) (some (.rat 70)) (by decide),
   (determine_status_rules.2.2.1 (some (.rat 30)) Option.none).mpr
     ⟨by decide, by decide⟩,
   determine_status_rules.2.2.2.1 Option.none Option.none (by decide) (by decide)⟩

/-- C3 counterexample: the date parser maps epoch serial 45658 to
2025-01-01 (1899-12-30 plus 45658 days), not to 2024-12-31 as claimed. -/
theorem parse_date_serial_45658_cex :
    Production.parse_date (.num (.rat 45658)) = some "2025-01-01" ∧
    Production.parse_date (.num (.rat 45658)) ≠ some "2024-12-31" := by
  constructor <;> decide

/-- C3 (amended): For every numeric cell value, the integer part of the
value is added as a day offset to the epoch 1899-12-30 (out-of-range
results give None); epoch serial 1 parses to 1899-12-31, serial 45657 to
2024-12-31, and serial 45658 to 2025-01-01. -/
theorem parse_date_epoch_offset :
    (∀ q : ℚ, 1 ≤ (excelEpochOrdinal : Int) + ratTrunc q →
      (excelEpochOrdinal : Int) + ratTrunc q ≤ (maxOrdinal : Int) →
      Production.parse_date (.num (.rat q))
        = some (isoOfOrdinal ((excelEpochOrdinal : Int) + ratTrunc q).toNat)) ∧
    Production.parse_date (.num (.rat 1)) = some "1899-12-31" ∧
    Production.parse_date (.num (.rat 45657)) = some "2024-12-31" ∧
    Production.parse_date (.num (.rat 45658)) = some "2025-01-01" := by
  refine ⟨?_, by decide, by decide, by decide⟩
  intro q h1 h2
  simp only [Production.parse_date]
  rw [if_pos ⟨h1, h2⟩]

/-- C3 witness: the epoch-offset rule applied at serial 1. -/
theorem parse_date_epoch_offset_witness :
    Production.parse_date (.num (.rat 1))
      = some (isoOfOrdinal ((excelEpochOrdinal : Int) + ratTrunc 1).toNat) :=
  parse_date_epoch_offset.1 1 (by decide) (by decide)

/-- C4 counterexample: the production number parser has no infinite/NaN
rejection; a native infinite value is passed through, not nulled. -/
theorem parse_number_infinity_cex :
    Production.parse_number (.num PyNum.inf) = some PyNum.inf ∧
    Production.parse_number (.num PyNum.inf) ≠ Option.none := by
  constructor <;> decide

unseal Rat.mul Rat.inv Rat.add Rat.sub in
/-- C4 (amended): For every input to the production number parser: a native
numeric value is accepted and returned as-is, with no infinite/NaN
rejection (that check exists only in the staging all-sheets importer's
variant); a string has thousand separators (comma, space, non-breaking
space), currency glyphs and the percent sign stripped before parsing, so
"1,234.50" yields 1234.5, "$1234.50" yields 1234.5, "45%" yields 45; and
the strings "" and "-" yield null. -/
theorem parse_number_cleaning :
    (∀ q : ℚ, Production.parse_number (.num (.rat q)) = some (.rat q)) ∧
    Production.parse_number (.num PyNum.inf) = some PyNum.inf ∧
    Production.parse_number (.num PyNum.nan) = some PyNum.nan ∧
    Production.parse_number (.str "1,234.50") = some (.rat (2469 / 2)) ∧
    Production.parse_number (.str "$1234.50") = some (.rat (2469 / 2)) ∧
    Production.parse_number (.str "45%") = some (.rat 45) ∧
    Production.parse_number (.str "") = Option.none ∧
    Production.parse_number (.str "-") = Option.none :=
  ⟨fun _ => rfl, by decide, by decide, by decide, by decide, by decide,
   by decide, by decide⟩

/-- The row-by-row fallback fold of the commit loop, with an explicit
starting state. -/
theorem insertBatch_fold {a : Type} (rowOk : a → Bool) (contractOf : a → Option String)
    (errMsg : a → String) (st : Production.CommitState) (batch : List a) :
    batch.foldl
      (fun s r =>
        if rowOk r then { s with inserted := s.inserted + 1 }
        else { s with
          errors := s.errors + 1
          errorRecords := s.errorRecords ++ [(contractOf r, strTakeN (errMsg r) 100)] })
      st
    = { inserted := st.inserted + (batch.filter rowOk).length
        errors := st.errors + (batch.filter (fun r => !(rowOk r))).length
        errorRecords := st.errorRecords ++
          (batch.filter (fun r => !(rowOk r))).map
            (fun r => (contractOf r, strTakeN (errMsg r) 100)) } := by
  induction batch generalizing st with
  | nil => simp
  | cons hd tl ih =>
    by_cases h : rowOk hd
    · rw [List.foldl_cons, if_pos h, ih]
      have hfc : (hd :: tl).filter rowOk = hd :: tl.filter rowOk := by
        simp [List.filter_cons, h]
      have hfn : (hd :: tl).filter (fun r => !(rowOk r))
          = tl.filter (fun r => !(rowOk r)) := by
        simp [List.filter_cons, h]
      rw [hfc, hfn, List.length_cons]
      congr 1
      dsimp only
      omega
    · rw [List.foldl_cons, if_neg h, ih]
      have hb : rowOk hd = false := by simpa using h
      have hfc : (hd :: tl).filter rowOk = tl.filter rowOk := by
        simp [List.filter_cons, hb]
      have hfn : (hd :: tl).filter (fun r => !(rowOk r))
          = hd :: tl.filter (fun r => !(rowOk r)) := by
        simp [List.filter_cons, hb]
      rw [hfc, hfn, List.length_cons, List.map_cons]
      congr 1
      · dsimp only
        omega
      · simp

/-- C1: For every chunk of records submitted to the batch commit engine, if
the bulk insert of the chunk fails, each record of the chunk is retried
individually; every individually successful row increments the inserted
count and every individually failing row increments the error count and is
recorded (contract number plus truncated error message) without aborting
the run — in particular, a 50-record chunk in which exactly one record
violates a constraint yields 49 inserted and 1 reported error, never fewer
than 49 inserted. -/
theorem batch_commit_row_fallback {a : Type} (rowOk : a → Bool)
    (contractOf : a → Option String) (errMsg : a → String)
    (bulkOk : List a → Bool) (st : Production.CommitState) (batch : List a)
    (hfail : bulkOk batch = false) :
    Production.insertBatch rowOk contractOf errMsg bulkOk st batch
      = { inserted := st.inserted + (batch.filter rowOk).length
          errors := st.errors + (batch.filter (fun r => !(rowOk r))).length
          errorRecords := st.errorRecords ++
            (batch.filter (fun r => !(rowOk r))).map
              (fun r => (contractOf r, strTakeN (errMsg r) 100)) } ∧
    (batch.length = 50 → (batch.filter (fun r => !(rowOk r))).length = 1 →
      (Production.insertBatch rowOk contractOf errMsg bulkOk st batch).inserted
          = st.inserted + 49 ∧
      (Production.insertBatch rowOk contractOf errMsg bulkOk st batch).errors
          = st.errors + 1 ∧
      (Production.insertBatch rowOk contractOf errMsg bulkOk st batch).errorRecords.length
          = st.errorRecords.length + 1) := by
  have hmain : Production.insertBatch rowOk contractOf errMsg bulkOk st batch
      = { inserted := st.inserted + (batch.filter rowOk).length
          errors := st.errors + (batch.filter (fun r => !(rowOk r))).length
          errorRecords := st.errorRecords ++
            (batch.filter (fun r => !(rowOk r))).map
              (fun r => (contractOf r, strTakeN (errMsg r) 100)) } := by
    unfold Production.insertBatch
    rw [hfail]
    simp only [Bool.false_eq_true, if_false]
    exact insertBatch_fold rowOk contractOf errMsg st batch
  refine ⟨hmain, fun hlen herr => ?_⟩
  have hsplit := filter_length_split rowOk batch
  rw [hmain]
  refine ⟨by simp only; omega, by simp only; omega, ?_⟩
  simp only [List.length_append, List.length_map, herr]

/-- C1 witness: a 50-record chunk whose bulk insert fails and in which
exactly one record violates a constraint yields 49 inserted and 1 error. -/
theorem batch_commit_row_fallback_witness :
    (Production.insertBatch (fun n : Nat => !(n == 7)) (fun n => some (toString n))
      (fun _ => "constraint violation") (fun _ => false)
      { inserted := 0, errors := 0, errorRecords := [] } (List.range 50)).inserted = 49 ∧
    (Production.insertBatch (fun n : Nat => !(n == 7)) (fun n => some (toString n))
      (fun _ => "constraint violation") (fun _ => false)
      { inserted := 0, errors := 0, errorRecords := [] } (List.range 50)).errors = 1 := by
  have h := (batch_commit_row_fallback (fun n : Nat => !(n == 7))
    (fun n => some (toString n)) (fun _ => "constraint violation") (fun _ => false)
    { inserted := 0, errors := 0, errorRecords := [] } (List.range 50) rfl).2
    (by decide) (by decide)
  exact ⟨by rw [h.1], by rw [h.2.1]⟩

/-- One table of the rollback loop under a universally affirmative
confirmation gate keeps exactly the rows not tagged with the batch id. -/
theorem rollbackTable_confirmed {a : Type} (batchOf : a → Option String)
    (confirm : String → Nat → Bool) (bid tname : String) (rows : List a)
    (hc : ∀ t c, confirm t c = true) :
    Production.rollbackTable batchOf confirm bid tname rows
      = rows.filter (fun r => !(batchOf r == some bid)) := by
  unfold Production.rollbackTable
  by_cases h0 : (rows.filter (fun r => batchOf r == some bid)).length = 0
  · rw [if_pos h0]
    have hnil : rows.filter (fun r => batchOf r == some bid) = [] :=
      List.length_eq_zero.mp h0
    have hall : ∀ r ∈ rows, ¬((batchOf r == some bid) = true) := by
      intro r hr hcon
      have : r ∈ rows.filter (fun r => batchOf r == some bid) :=
        List.mem_filter.mpr ⟨hr, hcon⟩
      rw [hnil] at this
      exact absurd this (List.not_mem_nil r)
    symm
    rw [List.filter_eq_self]
    intro r hr
    simpa using hall r hr
  · rw [if_neg h0, hc, if_pos rfl]

/-- C2: For every store state and every batch id, rollback-by-batch (after
counting matches and obtaining confirmation) deletes exactly the rows
whose import_batch_id equals the given batch id; rows carrying a different
batch id and rows carrying no batch tag are left unchanged in every
table. -/
theorem rollback_batch_scope {a : Type} (batchOf : a → Option String)
    (confirm : String → Nat → Bool) (bid : String) (st : Production.Store a)
    (hc : ∀ t c, confirm t c = true) :
    (Production.rollback_batch batchOf confirm bid st).inward_reinsurance
        = st.inward_reinsurance.filter (fun r => !(batchOf r == some bid)) ∧
    (Production.rollback_batch batchOf confirm bid st).legal_entities
        = st.legal_entities.filter (fun r => !(batchOf r == some bid)) ∧
    (∀ r ∈ st.inward_reinsurance, batchOf r ≠ some bid →
      r ∈ (Production.rollback_batch batchOf confirm bid st).inward_reinsurance) ∧
    (∀ r ∈ st.legal_entities, batchOf r ≠ some bid →
      r ∈ (Production.rollback_batch batchOf confirm bid st).legal_entities) ∧
    (∀ r, r ∈ (Production.rollback_batch batchOf confirm bid st).inward_reinsurance →
      r ∈ st.inward_reinsurance ∧ batchOf r ≠ some bid) ∧
    (∀ r, r ∈ (Production.rollback_batch batchOf confirm bid st).legal_entities →
      r ∈ st.legal_entities ∧ batchOf r ≠ some bid) := by
  have h1 : (Production.rollback_batch batchOf confirm bid st).inward_reinsurance
      = st.inward_reinsurance.filter (fun r => !(batchOf r == some bid)) :=
    rollbackTable_confirmed batchOf confirm bid "inward_reinsurance"
      st.inward_reinsurance hc
  have h2 : (Production.rollback_batch batchOf confirm bid st).legal_entities
      = st.legal_entities.filter (fun r => !(batchOf r == some bid)) :=
    rollbackTable_confirmed batchOf confirm bid "legal_entities"
      st.legal_entities hc
  refine ⟨h1, h2, ?_, ?_, ?_, ?_⟩
  · intro r hr hb
    rw [h1]
    exact List.mem_filter.mpr ⟨hr, by simpa using hb⟩
  · intro r hr hb
    rw [h2]
    exact List.mem_filter.mpr ⟨hr, by simpa using hb⟩
  · intro r hr
    rw [h1] at hr
    have := List.mem_filter.mp hr
    exact ⟨this.1, by simpa using this.2⟩
  · intro r hr
    rw [h2] at hr
    have := List.mem_filter.mp hr
    exact ⟨this.1, by simpa using this.2⟩

/-- C2 witness: rollback at a concrete two-table store removes the rows of
batch b1 and keeps the row of batch b2 and the untagged row. -/
theorem rollback_batch_scope_witness :
    (Production.rollback_batch (fun r : String × Option String => r.2)
      (fun _ _ => true) "b1"
      { inward_reinsurance := [("x", some "b1"), ("y", some "b2"), ("z", Option.none)]
        legal_entities := [("e", some "b1")] }).inward_reinsurance
      = [("y", some "b2"), ("z", Option.none)] ∧
    (Production.rollback_batch (fun r : String × Option String => r.2)
      (fun _ _ => true) "b1"
      { inward_reinsurance := [("x", some "b1"), ("y", some "b2"), ("z", Option.none)]
        legal_entities := [("e", some "b1")] }).legal_entities = [] := by
  have h := rollback_batch_scope (fun r : String × Option String => r.2)
    (fun _ _ => true) "b1"
    { inward_reinsurance := [("x", some "b1"), ("y", some "b2"), ("z", Option.none)]
      legal_entities := [("e", some "b1")] } (fun _ _ => rfl)
  exact ⟨by rw [h.1]; decide, by rw [h.2.1]; decide⟩

/-- Appending entries on the right preserves an existing lookup. -/
theorem lookupKey_append {k : String} {v : Production.Entity}
    (acc l2 : List (String × Production.Entity))
    (h : Production.lookupKey k acc = some v) :
    Production.lookupKey k (acc ++ l2) = some v := by
  induction acc with
  | nil => simp [Production.lookupKey] at h
  | cons hd tl ih =>
    obtain ⟨k2, e2⟩ := hd
    simp only [List.cons_append, Production.lookupKey] at h ⊢
    by_cases hk : k2 = k
    · rwa [if_pos hk] at h ⊢
    · rw [if_neg hk] at h ⊢
      exact ih h

/-- Inserting a candidate preserves an existing lookup. -/
theorem lookupKey_addEntity {k key : String} {e2 v : Production.Entity}
    {acc : List (String × Production.Entity)}
    (h : Production.lookupKey k acc = some v) :
    Production.lookupKey k (Production.addEntity acc key e2) = some v := by
  unfold Production.addEntity
  split
  · exact h
  · exact lookupKey_append acc [(key, e2)] h

/-- Processing one more record preserves an existing lookup. -/
theorem lookupKey_processRecord {k : String} {v : Production.Entity}
    (r : Production.Record) (acc : List (String × Production.Entity))
    (h : Production.lookupKey k acc = some v) :
    Production.lookupKey k (Production.processRecord acc r) = some v := by
  unfold Production.processRecord
  cases hce : r.cedant_name <;> cases hbr : r.broker_name <;>
    cases hin : r.original_insured_name <;>
    simp only <;> (try split_ifs) <;>
    first
      | exact h
      | exact lookupKey_addEntity h
      | exact lookupKey_addEntity (lookupKey_addEntity h)
      | exact lookupKey_addEntity (lookupKey_addEntity (lookupKey_addEntity h))

/-- Folding further records over the entity map preserves an existing
lookup. -/
theorem lookupKey_foldl {k : String} {v : Production.Entity}
    (rs : List Production.Record) (acc : List (String × Production.Entity))
    (h : Production.lookupKey k acc = some v) :
    Production.lookupKey k (rs.foldl Production.processRecord acc) = some v := by
  induction rs generalizing acc with
  | nil => exact h
  | cons hd tl ih => exact ih _ (lookupKey_processRecord hd acc h)

/-- A key is absent from the association list exactly when its lookup is
None. -/
theorem lookupKey_eq_none {k : String} {acc : List (String × Production.Entity)} :
    Production.lookupKey k acc = Option.none ↔ k ∉ acc.map Prod.fst := by
  induction acc with
  | nil => simp [Production.lookupKey]
  | cons hd tl ih =>
    obtain ⟨k2, e2⟩ := hd
    simp only [Production.lookupKey, List.map_cons, List.mem_cons]
    by_cases hk : k2 = k
    · simp [hk]
    · rw [if_neg hk, ih]
      constructor
      · intro hn hor
        rcases hor with h1 | h2
        · exact hk h1.symm
        · exact hn h2
      · intro hn h2
        exact hn (Or.inr h2)

/-- Inserting a candidate keeps the dedup keys pairwise distinct. -/
theorem keys_nodup_addEntity (acc : List (String × Production.Entity))
    (key : String) (e : Production.Entity)
    (h : (acc.map Prod.fst).Nodup) :
    ((Production.addEntity acc key e).map Prod.fst).Nodup := by
  unfold Production.addEntity
  split
  · exact h
  · rename_i hcond
    push_neg at hcond
    have hnone : Production.lookupKey key acc = Option.none := by
      cases hv : Production.lookupKey key acc with
      | none => rfl
      | some v => exact absurd (by simp [hv]) hcond.2
    have hnm : key ∉ acc.map Prod.fst := lookupKey_eq_none.mp hnone
    rw [List.map_append]
    simp only [List.map_cons, List.map_nil]
    rw [List.nodup_append]
    exact ⟨h, List.nodup_singleton key, by simpa using hnm⟩

/-- Processing one record keeps the dedup keys pairwise distinct. -/
theorem keys_nodup_processRecord (r : Production.Record)
    (acc : List (String × Production.Entity))
    (h : (acc.map Prod.fst).Nodup) :
    ((Production.processRecord acc r).map Prod.fst).Nodup := by
  unfold Production.processRecord
  cases hce : r.cedant_name <;> cases hbr : r.broker_name <;>
    cases hin : r.original_insured_name <;>
    simp only <;> (try split_ifs) <;>
    first
      | exact h
      | exact keys_nodup_addEntity _ _ _ h
      | exact keys_nodup_addEntity _ _ _ (keys_nodup_addEntity _ _ _ h)
      | exact keys_nodup_addEntity _ _ _
          (keys_nodup_addEntity _ _ _ (keys_nodup_addEntity _ _ _ h))

/-- The whole run keeps the dedup keys pairwise distinct. -/
theorem keys_nodup_foldl (rs : List Production.Record)
    (acc : List (String × Production.Entity))
    (h : (acc.map Prod.fst).Nodup) :
    ((rs.foldl Production.processRecord acc).map Prod.fst).Nodup := by
  induction rs generalizing acc with
  | nil => exact h
  | cons hd tl ih => exact ih _ (keys_nodup_processRecord hd acc h)

/-- C5: For every batch of normalized records, the entity extractor keys
counterparty candidates by the whitespace-collapsed trimmed name, and the
first occurrence of a key within the run is authoritative: a later record
referencing the same key, even under a different role, does not add a
second candidate or change the first one's entry — so a record with
cedant "Acme   Insurance" followed by a record with broker
"Acme Insurance" yields exactly one entity candidate, still typed from the
first occurrence. -/
theorem entity_dedup_first_occurrence :
    Production.normalize_name "Acme   Insurance" = "Acme Insurance" ∧
    (∀ rs : List Production.Record,
      ((Production.entityMap rs).map Prod.fst).Nodup) ∧
    (∀ rs1 rs2 : List Production.Record, ∀ k : String, ∀ v : Production.Entity,
      Production.lookupKey k (Production.entityMap rs1) = some v →
      Production.lookupKey k (Production.entityMap (rs1 ++ rs2)) = some v) ∧
    Production.extract_legal_entities
      [{ cedant_name := some "Acme   Insurance", territory := some "UK",
         import_batch_id := some "b-1" },
       { broker_name := some "Acme Insurance", import_batch_id := some "b-1" }]
      = [{ fullName := "Acme   Insurance", shortName := Option.none,
           type := "Insurance Company", country := some "UK",
           import_batch_id := some "b-1" }] := by
  refine ⟨by decide, ?_, ?_, by decide⟩
  · intro rs
    exact keys_nodup_foldl rs [] (by simp)
  · intro rs1 rs2 k v h
    unfold Production.entityMap at h ⊢
    rw [List.foldl_append]
    exact lookupKey_foldl rs2 _ h

/-- C5 witness: first-occurrence stability applied at the concrete Acme
records. -/
theorem entity_dedup_first_occurrence_witness :
    Production.lookupKey "Acme Insurance"
      (Production.entityMap
        ([{ cedant_name := some "Acme   Insurance", territory := some "UK",
            import_batch_id := some "b-1" }] ++
         [{ broker_name := some "Acme Insurance", import_batch_id := some "b-1" }]))
      = some { fullName := "Acme   Insurance", shortName := Option.none,
               type := "Insurance Company", country := some "UK",
               import_batch_id := some "b-1" } :=
  entity_dedup_first_occurrence.2.2.1
    [{ cedant_name := some "Acme   Insurance", territory := some "UK",
       import_batch_id := some "b-1" }]
    [{ broker_name := some "Acme Insurance", import_batch_id := some "b-1" }]
    "Acme Insurance" _ (by decide)

/-- C6 counterexample: an insured-role candidate whose name contains the
broker keyword is typed Insured by the extractor, not Broker — the insured
role never consults the keyword classifier. -/
theorem insured_role_broker_keyword_cex :
    (Production.extract_legal_entities
      [{ original_insured_name := some "Best Broker Partners" }]).map
        Production.Entity.type = ["Insured"] ∧
    strContains (pyLower "Best Broker Partners") "broker" = true := by
  exact ⟨by decide, by decide⟩

/-- C6 (amended): For cedant- and broker-role candidates the entity type is
assigned by the first matching rule in order: broker context flag or a
broker keyword in the name gives Broker; otherwise an insurance-domain
keyword gives Insurance Company; otherwise a reinsurance-domain keyword
gives Reinsurer; otherwise a cedant-role candidate gives Insurance
Company; otherwise Other.  Insured-role candidates are typed Insured
unconditionally, without consulting the keyword rules. -/
theorem entity_type_rule_order :
    (∀ name c, Production.determine_entity_type name c true = "Broker") ∧
    (∀ name c b, strContains (pyLower name) "broker" = true →
      Production.determine_entity_type name c b = "Broker") ∧
    (∀ name c, strContains (pyLower name) "broker" = false →
      (strContains (pyLower name) "insurance" = true ∨
       strContains (pyLower name) "страхов" = true ∨
       strContains (pyLower name) "insuranc" = true) →
      Production.determine_entity_type name c false = "Insurance Company") ∧
    (∀ name c, strContains (pyLower name) "broker" = false →
      strContains (pyLower name) "insurance" = false →
      strContains (pyLower name) "страхов" = false →
      strContains (pyLower name) "insuranc" = false →
      (strContains (pyLower name) "reinsur" = true ∨
       strContains (pyLower name) "перестрах" = true) →
      Production.determine_entity_type name c false = "Reinsurer") ∧
    (∀ name, strContains (pyLower name) "broker" = false →
      strContains (pyLower name) "insurance" = false →
      strContains (pyLower name) "страхов" = false →
      strContains (pyLower name) "insuranc" = false →
      strContains (pyLower name) "reinsur" = false →
      strContains (pyLower name) "перестрах" = false →
      Production.determine_entity_type name true false = "Insurance Company") ∧
    (∀ name, strContains (pyLower name) "broker" = false →
      strContains (pyLower name) "insurance" = false →
      strContains (pyLower name) "страхов" = false →
      strContains (pyLower name) "insuranc" = false →
      strContains (pyLower name) "reinsur" = false →
      strContains (pyLower name) "перестрах" = false →
      Production.determine_entity_type name false false = "Other") ∧
    (∀ r : Production.Record, r.cedant_name = Option.none →
      r.broker_name = Option.none →
      ∀ e ∈ Production.extract_legal_entities [r], e.type = "Insured") := by
  refine ⟨?_, ?_, ?_, ?_, ?_, ?_, ?_⟩
  · intro name c
    simp [Production.determine_entity_type]
  · intro name c b h
    simp [Production.determine_entity_type, h]
  · intro name c h hkw
    unfold Production.determine_entity_type
    simp only [h, Bool.or_false, Bool.false_eq_true, if_false]
    rcases hkw with h1 | h1 | h1 <;> simp [h1]
  · intro name c h h1 h2 h3 hkw
    unfold Production.determine_entity_type
    simp only [h, h1, h2, h3, Bool.or_false, Bool.false_eq_true, if_false]
    rcases hkw with h4 | h4 <;> simp [h4]
  · intro name h h1 h2 h3 h4 h5
    simp [Production.determine_entity_type, h, h1, h2, h3, h4, h5]
  · intro name h h1 h2 h3 h4 h5
    simp [Production.determine_entity_type, h, h1, h2, h3, h4, h5]
  · intro r hc hb e he
    simp only [Production.extract_legal_entities, Production.entityMap,
      List.foldl_cons, List.foldl_nil] at he
    unfold Production.processRecord at he
    rw [hc, hb] at he
    cases hi : r.original_insured_name with
    | none => rw [hi] at he; simp at he
    | some nm =>
      rw [hi] at he
      simp only at he
      by_cases hnm : nm ≠ ""
      · rw [if_pos hnm] at he
        unfold Production.addEntity at he
        split at he
        · simp at he
        · simp only [List.nil_append, List.map_cons, List.map_nil,
            List.mem_cons, List.not_mem_nil, or_false] at he
          rw [he]
          rfl
      · rw [if_neg hnm] at he
        simp at he

/-- C6 witness: the broker-keyword rule and the insured-role rule applied
at concrete names. -/
theorem entity_type_rule_order_witness :
    Production.determine_entity_type "XYZ Broker Ltd" true false = "Broker" ∧
    Production.determine_entity_type "Plain Name" true false = "Insurance Company" :=
  ⟨entity_type_rule_order.2.1 "XYZ Broker Ltd" true false (by decide),
   entity_type_rule_order.2.2.2.2.1 "Plain Name" (by decide) (by decide)
     (by decide) (by decide) (by decide) (by decide)⟩

/-- C7: For every auxiliary claim record, the parent matcher consults only
the map family fixed by the declared source type, trying the category's
(map, identifier) pairs in order with the first hit winning: an inward
claim is matched only against the contract-number map (slip number tried
first, then contract number) — its result does not depend on the policy
maps at all, and its policy reference is always null — and when no map
yields a hit, both parent references stay null while the slip and contract
identifiers are stored (trimmed, as all text fields are) on the record
unchanged by the matching outcome. -/
theorem match_parent_scoped :
    (∀ st slip contract pbn pbs pbn2 pbs2 ibc,
      (st = "inward-foreign" ∨ st = "inward-domestic") →
      Claims.match_parent st slip contract pbn pbs ibc
        = Claims.match_parent st slip contract pbn2 pbs2 ibc) ∧
    (∀ st slip contract pbn pbs ibc,
      (st = "inward-foreign" ∨ st = "inward-domestic") →
      (Claims.match_parent st slip contract pbn pbs ibc).1 = Option.none) ∧
    (∀ st slip contract pbn pbs ibc i,
      (st = "inward-foreign" ∨ st = "inward-domestic") →
      Claims.keyOf slip ≠ "" → ibc (Claims.keyOf slip) = some i →
      Claims.match_parent st slip contract pbn pbs ibc
        = (Option.none, some i)) ∧
    (∀ st slip contract pbn pbs ibc,
      (st = "inward-foreign" ∨ st = "inward-domestic") →
      ibc (Claims.keyOf slip) = Option.none →
      ibc (Claims.keyOf contract) = Option.none →
      Claims.match_parent st slip contract pbn pbs ibc
        = (Option.none, Option.none)) ∧
    (∀ sheet row_idx row_number pbn pbs ibc today c txns,
      Claims.parse_claim_row sheet row_idx row_number pbn pbs ibc today
          = (some c, txns) →
      c.slip_number = (if (sheet row_idx 5).truthy
          then some (pyStrip (pyStr (sheet row_idx 5))) else Option.none) ∧
      c.contract_number = (if (sheet row_idx 13).truthy
          then some (pyStrip (pyStr (sheet row_idx 13))) else Option.none) ∧
      c.policy_id = Claims.keepTruthy (Claims.match_parent
        (Claims.determine_source_type (sheet row_idx 0)) (sheet row_idx 5)
        (sheet row_idx 13) pbn pbs ibc).1 ∧
      c.inward_reinsurance_id = Claims.keepTruthy (Claims.match_parent
        (Claims.determine_source_type (sheet row_idx 0)) (sheet row_idx 5)
        (sheet row_idx 13) pbn pbs ibc).2) := by
  have hbranch : ∀ st : String,
      (st = "inward-foreign" ∨ st = "inward-domestic") →
      (st = "inward-foreign" ∨ st = "inward-domestic") = True := by
    intro st h
    simp [h]
  refine ⟨?_, ?_, ?_, ?_, ?_⟩
  · intro st slip contract pbn pbs pbn2 pbs2 ibc h
    unfold Claims.match_parent
    rw [if_pos h, if_pos h]
  · intro st slip contract pbn pbs ibc h
    unfold Claims.match_parent
    rw [if_pos h]
    split_ifs <;> rfl
  · intro st slip contract pbn pbs ibc i h hk hs
    unfold Claims.match_parent
    rw [if_pos h, if_pos ⟨hk, by simp [hs]⟩, hs]
  · intro st slip contract pbn pbs ibc h hs hctr
    unfold Claims.match_parent
    rw [if_pos h]
    have h1 : ¬(Claims.keyOf slip ≠ "" ∧ (ibc (Claims.keyOf slip)).isSome) := by
      rintro ⟨_, hsome⟩
      rw [hs] at hsome
      simp at hsome
    have h2 : ¬(Claims.keyOf contract ≠ "" ∧
        (ibc (Claims.keyOf contract)).isSome) := by
      rintro ⟨_, hsome⟩
      rw [hctr] at hsome
      simp at hsome
    rw [if_neg h1, if_neg h2]
  · intro sheet row_idx row_number pbn pbs ibc today c txns hp
    simp only [Claims.parse_claim_row] at hp
    split at hp
    · exact absurd (congrArg Prod.fst hp) (by simp)
    · have hc := congrArg Prod.fst hp
      simp only at hc
      have := Option.some.inj hc
      subst this
      exact ⟨rfl, rfl, rfl, rfl⟩

/-- C7 witness: an inward claim whose identifier equals an existing policy
number still matches nothing when the contract map has no entry. -/
theorem match_parent_scoped_witness :
    Claims.match_parent "inward-foreign" (.str "S-1") (.str "S-1")
      (fun k => if k = "s-1" then some "P1" else Option.none)
      (fun k => if k = "s-1" then some "P1" else Option.none)
      (fun _ => Option.none) = (Option.none, Option.none) ∧
    Claims.match_parent "inward-foreign" (.str "S-1") (.str "C-9")
      (fun k => if k = "s-1" then some "P1" else Option.none)
      (fun _ => Option.none)
      (fun k => if k = "s-1" then some "I1" else Option.none)
      = (Option.none, some "I1") :=
  ⟨match_parent_scoped.2.2.2.1 "inward-foreign" (.str "S-1") (.str "S-1")
      (fun k => if k = "s-1" then some "P1" else Option.none)
      (fun k => if k = "s-1" then some "P1" else Option.none)
      (fun _ => Option.none) (Or.inl rfl) rfl rfl,
   match_parent_scoped.2.2.1 "inward-foreign" (.str "S-1") (.str "C-9")
      (fun k => if k = "s-1" then some "P1" else Option.none)
      (fun _ => Option.none)
      (fun k => if k = "s-1" then some "I1" else Option.none) "I1"
      (Or.inl rfl) (by decide) (by decide)⟩

/-- C9 counterexample: a row with a failing date coercion (and fallback
applications) is accepted, yet the production normalizer's collected
warning list is empty — the claimed warning is never recorded. -/
theorem parse_row_no_warning_cex :
    Production.parse_row_warnings
      [.none, .str "Some Insured", .none, .none, .none, .none, .none, .none,
       .none, .none, .none, .none, .none, .none, .none, .none, .none, .none,
       .none, .none, .none, .none, .none, .none, .none, .str "not a date"]
      5 "Sheet1" = [] ∧
    Production.parse_date (.str "not a date") = Option.none ∧
    (Production.parse_row
      [.none, .str "Some Insured", .none, .none, .none, .none, .none, .none,
       .none, .none, .none, .none, .none, .none, .none, .none, .none, .none,
       .none, .none, .none, .none, .none, .none, .none, .str "not a date"]
      5 "Sheet1" "b1" "2026-02-10" "2027-02-10" 2026).isSome = true := by
  exact ⟨rfl, by decide, by decide⟩


/-- fbContract leaves every field but the contract number unchanged. -/
theorem fbContract_frame (r : Production.Record) (p : String) :
    (Production.fbContract r p).deductible = r.deductible ∧
    (Production.fbContract r p).commission_percent = r.commission_percent ∧
    (Production.fbContract r p).net_premium = r.net_premium ∧
    (Production.fbContract r p).inception_date = r.inception_date ∧
    (Production.fbContract r p).limit_of_liability = r.limit_of_liability := by
  unfold Production.fbContract
  split <;> exact ⟨rfl, rfl, rfl, rfl, rfl⟩

/-- fbCedant leaves every field but the cedant name unchanged. -/
theorem fbCedant_frame (r : Production.Record) :
    (Production.fbCedant r).deductible = r.deductible ∧
    (Production.fbCedant r).commission_percent = r.commission_percent ∧
    (Production.fbCedant r).net_premium = r.net_premium ∧
    (Production.fbCedant r).inception_date = r.inception_date ∧
    (Production.fbCedant r).limit_of_liability = r.limit_of_liability := by
  unfold Production.fbCedant
  split <;> exact ⟨rfl, rfl, rfl, rfl, rfl⟩

/-- fbType leaves every field but the type of cover unchanged. -/
theorem fbType_frame (r : Production.Record) :
    (Production.fbType r).deductible = r.deductible ∧
    (Production.fbType r).commission_percent = r.commission_percent ∧
    (Production.fbType r).net_premium = r.net_premium ∧
    (Production.fbType r).inception_date = r.inception_date ∧
    (Production.fbType r).limit_of_liability = r.limit_of_liability := by
  unfold Production.fbType
  split <;> exact ⟨rfl, rfl, rfl, rfl, rfl⟩

/-- fbClass leaves every field but the class of cover unchanged. -/
theorem fbClass_frame (r : Production.Record) :
    (Production.fbClass r).deductible = r.deductible ∧
    (Production.fbClass r).commission_percent = r.commission_percent ∧
    (Production.fbClass r).net_premium = r.net_premium ∧
    (Production.fbClass r).inception_date = r.inception_date ∧
    (Production.fbClass r).limit_of_liability = r.limit_of_liability := by
  unfold Production.fbClass
  split <;> exact ⟨rfl, rfl, rfl, rfl, rfl⟩

/-- fbInception fills exactly the inception date, when it is falsy. -/
theorem fbInception_frame (r : Production.Record) (today : String) :
    (Production.fbInception r today).deductible = r.deductible ∧
    (Production.fbInception r today).commission_percent = r.commission_percent ∧
    (Production.fbInception r today).net_premium = r.net_premium ∧
    (Production.fbInception r today).inception_date
      = (if optFalsy r.inception_date then some today else r.inception_date) ∧
    (Production.fbInception r today).limit_of_liability = r.limit_of_liability := by
  unfold Production.fbInception
  split_ifs <;> exact ⟨rfl, rfl, rfl, rfl, rfl⟩

/-- fbExpiry leaves every field but the expiry date unchanged. -/
theorem fbExpiry_frame (r : Production.Record) (next_year : String) :
    (Production.fbExpiry r next_year).deductible = r.deductible ∧
    (Production.fbExpiry r next_year).commission_percent = r.commission_percent ∧
    (Production.fbExpiry r next_year).net_premium = r.net_premium ∧
    (Production.fbExpiry r next_year).inception_date = r.inception_date ∧
    (Production.fbExpiry r next_year).limit_of_liability = r.limit_of_liability := by
  unfold Production.fbExpiry
  split <;> exact ⟨rfl, rfl, rfl, rfl, rfl⟩

/-- fbCurrency leaves every field but the currency unchanged. -/
theorem fbCurrency_frame (r : Production.Record) :
    (Production.fbCurrency r).deductible = r.deductible ∧
    (Production.fbCurrency r).commission_percent = r.commission_percent ∧
    (Production.fbCurrency r).net_premium = r.net_premium ∧
    (Production.fbCurrency r).inception_date = r.inception_date ∧
    (Production.fbCurrency r).limit_of_liability = r.limit_of_liability := by
  unfold Production.fbCurrency
  split <;> exact ⟨rfl, rfl, rfl, rfl, rfl⟩

/-- fbLimit fills exactly the limit of liability, when it is None. -/
theorem fbLimit_frame (r : Production.Record) :
    (Production.fbLimit r).deductible = r.deductible ∧
    (Production.fbLimit r).commission_percent = r.commission_percent ∧
    (Production.fbLimit r).net_premium = r.net_premium ∧
    (Production.fbLimit r).inception_date = r.inception_date ∧
    (Production.fbLimit r).limit_of_liability
      = (if r.limit_of_liability = Option.none then some (.rat 0)
         else r.limit_of_liability) := by
  unfold Production.fbLimit
  split_ifs <;> exact ⟨rfl, rfl, rfl, rfl, rfl⟩

/-- fbGross leaves every field but the gross premium unchanged. -/
theorem fbGross_frame (r : Production.Record) :
    (Production.fbGross r).deductible = r.deductible ∧
    (Production.fbGross r).commission_percent = r.commission_percent ∧
    (Production.fbGross r).net_premium = r.net_premium ∧
    (Production.fbGross r).inception_date = r.inception_date ∧
    (Production.fbGross r).limit_of_liability = r.limit_of_liability := by
  unfold Production.fbGross
  split <;> exact ⟨rfl, rfl, rfl, rfl, rfl⟩

/-- fbShare leaves every field but the share unchanged. -/
theorem fbShare_frame (r : Production.Record) :
    (Production.fbShare r).deductible = r.deductible ∧
    (Production.fbShare r).commission_percent = r.commission_percent ∧
    (Production.fbShare r).net_premium = r.net_premium ∧
    (Production.fbShare r).inception_date = r.inception_date ∧
    (Production.fbShare r).limit_of_liability = r.limit_of_liability := by
  unfold Production.fbShare
  split <;> exact ⟨rfl, rfl, rfl, rfl, rfl⟩

/-- C9 (amended): For every raw row processed by the production normalizer and
derived-field resolver, no coercion failure and no fallback application
raises an error: every field-coercion failure degrades the field to null
and every required-field fallback is applied — but both happen silently:
the normalizer collects no warning list and records no row-scoped warnings
(the warning-collecting variant exists only in the staging portfolio
importer). -/
theorem parse_row_silent_degrade :
    (∀ row row_number sheet_name,
      Production.parse_row_warnings row row_number sheet_name = []) ∧
    Production.parse_number (.str "not a number") = Option.none ∧
    Production.parse_date (.str "not a date") = Option.none ∧
    (∀ row row_number sheet_name batch_id today next_year currentYear rec,
      Production.parse_row row row_number sheet_name batch_id today
          next_year currentYear = some rec →
      rec.deductible = Production.parse_number (Production.cellAt row 35) ∧
      rec.commission_percent = Production.parse_number (Production.cellAt row 45) ∧
      rec.net_premium = Production.parse_number (Production.cellAt row 48) ∧
      (Production.parse_date (Production.cellAt row 25) = Option.none →
        rec.inception_date = some today) ∧
      (Production.parse_number (Production.cellAt row 32) = Option.none →
        rec.limit_of_liability = some (.rat 0))) := by
  refine ⟨fun _ _ _ => rfl, by decide, by decide, ?_⟩
  intro row row_number sheet_name batch_id today next_year currentYear rec h
  simp only [Production.parse_row] at h
  split at h
  · exact absurd h (by simp)
  · have hr := Option.some.inj h
    subst hr
    refine ⟨?_, ?_, ?_, ?_, ?_⟩
    · rw [(fbShare_frame _).1, (fbGross_frame _).1, (fbLimit_frame _).1,
        (fbCurrency_frame _).1, (fbExpiry_frame _ _).1, (fbInception_frame _ _).1,
        (fbClass_frame _).1, (fbType_frame _).1, (fbCedant_frame _).1,
        (fbContract_frame _ _).1]
    · rw [(fbShare_frame _).2.1, (fbGross_frame _).2.1, (fbLimit_frame _).2.1,
        (fbCurrency_frame _).2.1, (fbExpiry_frame _ _).2.1,
        (fbInception_frame _ _).2.1, (fbClass_frame _).2.1, (fbType_frame _).2.1,
        (fbCedant_frame _).2.1, (fbContract_frame _ _).2.1]
    · rw [(fbShare_frame _).2.2.1, (fbGross_frame _).2.2.1, (fbLimit_frame _).2.2.1,
        (fbCurrency_frame _).2.2.1, (fbExpiry_frame _ _).2.2.1,
        (fbInception_frame _ _).2.2.1, (fbClass_frame _).2.2.1,
        (fbType_frame _).2.2.1, (fbCedant_frame _).2.2.1,
        (fbContract_frame _ _).2.2.1]
    · intro hdate
      rw [(fbShare_frame _).2.2.2.1, (fbGross_frame _).2.2.2.1,
        (fbLimit_frame _).2.2.2.1, (fbCurrency_frame _).2.2.2.1,
        (fbExpiry_frame _ _).2.2.2.1, (fbInception_frame _ _).2.2.2.1,
        (fbClass_frame _).2.2.2.1, (fbType_frame _).2.2.2.1,
        (fbCedant_frame _).2.2.2.1, (fbContract_frame _ _).2.2.2.1]
      have : Production.parse_date (Production.cellAt row 25) = Option.none := hdate
      simp only [this, optFalsy]
      rfl
    · intro hnum
      rw [(fbShare_frame _).2.2.2.2, (fbGross_frame _).2.2.2.2,
        (fbLimit_frame _).2.2.2.2, (fbCurrency_frame _).2.2.2.2,
        (fbExpiry_frame _ _).2.2.2.2, (fbInception_frame _ _).2.2.2.2,
        (fbClass_frame _).2.2.2.2, (fbType_frame _).2.2.2.2,
        (fbCedant_frame _).2.2.2.2, (fbContract_frame _ _).2.2.2.2]
      have : Production.parse_number (Production.cellAt row 32) = Option.none := hnum
      simp only [this]
      rfl

/-- C9 witness: the silent-degrade characterization applied at a concrete
short row (missing numeric and date cells degrade to null and fallback). -/
theorem parse_row_silent_degrade_witness :
    Production.parse_row_warnings [.none, .str "Some Insured"] 5 "Sheet1" = [] ∧
    (Production.parse_row [.none, .str "Some Insured"] 5 "Sheet1" "b1"
        "2026-02-10" "2027-02-10" 2026).map Production.Record.deductible
      = some Option.none ∧
    (Production.parse_row [.none, .str "Some Insured"] 5 "Sheet1" "b1"
        "2026-02-10" "2027-02-10" 2026).map Production.Record.inception_date
      = some (some "2026-02-10") := by
  refine ⟨parse_row_silent_degrade.1 [.none, .str "Some Insured"] 5 "Sheet1", ?_, ?_⟩
  · cases hr : Production.parse_row [.none, .str "Some Insured"] 5 "Sheet1" "b1"
        "2026-02-10" "2027-02-10" 2026 with
    | none => exact absurd hr (by decide)
    | some rec =>
      have h := (parse_row_silent_degrade.2.2.2 [.none, .str "Some Insured"] 5
        "Sheet1" "b1" "2026-02-10" "2027-02-10" 2026 rec hr).1
      simp only [Option.map_some']
      rw [h]
      decide
  · cases hr : Production.parse_row [.none, .str "Some Insured"] 5 "Sheet1" "b1"
        "2026-02-10" "2027-02-10" 2026 with
    | none => exact absurd hr (by decide)
    | some rec =>
      have h := ((parse_row_silent_degrade.2.2.2 [.none, .str "Some Insured"] 5
        "Sheet1" "b1" "2026-02-10" "2027-02-10" 2026 rec hr).2.2.2.1) (by decide)
      simp only [Option.map_some']
      rw [h]
